import Mathlib

/-!
Verification of the crudify-core client library (src/crudify.ts):
session/token lifecycle, response normalization and auth-retry orchestration.

JavaScript runtime values that can flow through the normalizer are modelled
by the inductive type `Json` below (JSON values plus `undefined`, which
property access on a non-existent key produces).  External runtime services
(the built-in JSON parser, base64+inflate decompression, base64+JSON decode
of a JWT payload segment) are passed in as function parameters, since they
are not part of this repository; every theorem quantifies over them.
-/

namespace Crudify

/-- Lower-casing as performed by toLowerCase on the ASCII keys involved here
(defined over the character list so that it evaluates by rfl). -/
def jsToLower (s : String) : String := String.mk (s.data.map Char.toLower)

/-- Upper-casing as performed by toUpperCase on ASCII message text. -/
def jsToUpper (s : String) : String := String.mk (s.data.map Char.toUpper)

/-- Global single-character replacement, modelling replace(/ /g, _). -/
def replaceChar (s : String) (c r : Char) : String :=
  String.mk (s.data.map (fun ch => if ch = c then r else ch))

/-- Global single-character deletion, modelling replace of a one-character
pattern by the empty string. -/
def dropChar (s : String) (c : Char) : String :=
  String.mk (s.data.filter (fun ch => ch ≠ c))

/-- Whitespace trim from both ends, modelling the trim method. -/
def trimStr (s : String) : String :=
  String.mk (((s.data.dropWhile Char.isWhitespace).reverse.dropWhile
    Char.isWhitespace).reverse)

/-- First character of a string, if any. -/
def strHead (s : String) : Option Char :=
  match s.data with
  | [] => none
  | c :: _ => some c

/-- Splitting a character list at a separator character. -/
def splitCharList (sep : Char) : List Char → List (List Char)
  | [] => [[]]
  | c :: rest =>
      match splitCharList sep rest with
      | [] => [[]]
      | part :: parts => if c = sep then [] :: part :: parts else (c :: part) :: parts

/-- The split method with a one-character separator, as used on JWT tokens. -/
def splitOnChar (s : String) (sep : Char) : List String :=
  (splitCharList sep s.data).map String.mk

/-- A JavaScript value as it can appear in the normalizer: the results of
JSON.parse plus the distinguished value undefined.  Numbers are modelled as
integers (the claims under study never depend on fractional arithmetic). -/
inductive Json where
  | null : Json
  | undefinedV : Json
  | bool (b : Bool) : Json
  | num (n : Int) : Json
  | str (s : String) : Json
  | arr (xs : List Json) : Json
  | obj (fields : List (String × Json)) : Json

/-- JavaScript truthiness: null, undefined, false, 0 and the empty string are
falsy; every object and array is truthy. -/
def truthy : Json → Bool
  | .null => false
  | .undefinedV => false
  | .bool b => b
  | .num n => n != 0
  | .str s => s != ""
  | .arr _ => true
  | .obj _ => true

/-- Nullish values, as tested by the ?? operator. -/
def nullish : Json → Bool
  | .null => true
  | .undefinedV => true
  | _ => false

/-- First binding of a key in an object field list (JS property lookup order;
JSON.parse keeps the last duplicate, but duplicates do not arise here). -/
def lookupField (fields : List (String × Json)) (k : String) : Option Json :=
  match fields with
  | [] => none
  | (k2, v) :: rest => if k2 = k then some v else lookupField rest k

/-- Property access `o[k]`: throws a TypeError on null/undefined, returns the
field (or undefined) on objects, and undefined on every other value. -/
def getProp : Json → String → Except String Json
  | .null, k => .error ("TypeError: Cannot read properties of null (reading " ++ k ++ ")")
  | .undefinedV, k => .error ("TypeError: Cannot read properties of undefined (reading " ++ k ++ ")")
  | .obj fields, k => .ok ((lookupField fields k).getD .undefinedV)
  | _, _ => .ok .undefinedV

/-- Index access `v[0]` as used on `issue.path`: throws on null/undefined,
indexes arrays, indexes characters of strings, reads the "0" property of
objects, and yields undefined on the remaining primitives. -/
def getIndexZero : Json → Except String Json
  | .null => .error "TypeError: Cannot read properties of null (reading 0)"
  | .undefinedV => .error "TypeError: Cannot read properties of undefined (reading 0)"
  | .arr xs => .ok ((xs.get? 0).getD .undefinedV)
  | .str s =>
      .ok (match s.data with
            | [] => .undefinedV
            | c :: _ => .str (String.mk [c]))
  | .obj fields => .ok ((lookupField fields "0").getD .undefinedV)
  | _ => .ok .undefinedV

mutual

/-- JavaScript String() coercion of the values above.  Arrays stringify by
joining element strings with commas (null/undefined elements become empty
strings); plain objects stringify to a fixed tag. -/
def jsToString : Json → String
  | .null => "null"
  | .undefinedV => "undefined"
  | .bool b => cond b "true" "false"
  | .num n => toString n
  | .str s => s
  | .obj _ => "[object Object]"
  | .arr xs => String.intercalate "," (jsArrParts xs)

/-- Element strings of an array under String() coercion. -/
def jsArrParts : List Json → List String
  | [] => []
  | x :: rest => (if nullish x then "" else jsToString x) :: jsArrParts rest

end

/-- Whether a value satisfies `v && typeof v === "object"` (the recursion
guard of the dangerous-key scan): objects and arrays only, since null is
falsy. -/
def isObjLike : Json → Bool
  | .arr _ => true
  | .obj _ => true
  | _ => false

/-- The dangerous key list of containsDangerousProperties, verbatim from the
source.  Note that two entries keep upper-case letters although they are
compared against lower-cased keys. -/
def dangerousKeys : List String :=
  ["__proto__", "constructor", "prototype", "eval", "function", "setTimeout",
   "setInterval", "require", "module", "exports", "global", "process"]

/-- Fuel-indexed body of containsDangerousProperties.  Fuel n+1 corresponds
to a source call at depth 10-n: keys of the current object are lower-cased
and tested against dangerousKeys, and the scan recurses (with one unit of
fuel less) into every truthy object-typed value.  A for..in loop over an
array visits index keys (never dangerous) and recurses into elements. -/
def dangerScanJson : Nat → Json → Bool
  | 0, _ => false
  | Nat.succ fuel, .obj fields =>
      fields.any (fun kv =>
        decide (jsToLower kv.1 ∈ dangerousKeys) ||
        (isObjLike kv.2 && dangerScanJson fuel kv.2))
  | Nat.succ fuel, .arr xs =>
      xs.any (fun x => isObjLike x && dangerScanJson fuel x)
  | _, _ => false

/-- The source function `containsDangerousProperties(obj, depth)`: returns
false immediately when depth > 10, otherwise scans keys and recurses at
depth+1.  Encoding: a call at depth d has 11-d units of fuel, so depth > 10
yields fuel 0 (immediate false) and each recursive step burns one unit,
exactly mirroring the source recursion. -/
def containsDangerousProperties (j : Json) (depth : Nat := 0) : Bool :=
  dangerScanJson (11 - depth) j

/-- Property access on a value already known to be non-nullish (the source
performs these reads only after a truthiness guard, so no TypeError can
arise; on truthy primitives the read yields undefined). -/
def propOrUndef (j : Json) (k : String) : Json :=
  match j with
  | .obj fields => (lookupField fields k).getD .undefinedV
  | _ => .undefinedV

/-- Strict equality of a runtime value against a string literal, as used by
the status switch: true only for a string of exactly that value. -/
def isStatusStr (st : Json) (s : String) : Bool :=
  match st with
  | .str s2 => s2 = s
  | _ => false

/-- The normalized result record built by formatResponseInternal.  A field
that the source return literal omits is none; a field whose key is present,
possibly with value undefined, is some. -/
structure InternalResp where
  success : Bool
  data : Option Json := none
  errors : Option Json := none
  fieldsWarning : Option Json := none
  errorCode : Option Json := none

/-- Enumerable-or-not members inherited from Object.prototype: reading
acc[key] for one of these on a plain object accumulator yields a truthy
inherited function, so the push that follows throws instead of appending. -/
def objectProtoKeys : List String :=
  ["constructor", "hasOwnProperty", "isPrototypeOf", "propertyIsEnumerable",
   "toLocaleString", "toString", "valueOf", "__proto__", "__defineGetter__",
   "__defineSetter__", "__lookupGetter__", "__lookupSetter__"]

/-- Whether the accumulator already has an own entry for a key. -/
def hasKey (acc : List (String × List Json)) (key : String) : Bool :=
  acc.any (fun kv => kv.1 = key)

/-- Appends a message to the existing entry of a key (first match). -/
def appendMsg : List (String × List Json) → String → Json → List (String × List Json)
  | [], _, _ => []
  | (k, ms) :: rest, key, msg =>
      if k = key then (k, ms ++ [msg]) :: rest
      else (k, ms) :: appendMsg rest key msg

/-- The reduce loop of formatErrorsInternal: for each issue, the key is
String(issue.path[0] ?? "_error"), and issue.message is pushed onto the
accumulator entry for that key (created on first use).  Property and index
reads can throw on malformed issues, and pushing onto an inherited
Object.prototype member throws. -/
def formatErrorsLoop : List Json → List (String × List Json) →
    Except String (List (String × List Json))
  | [], acc => .ok acc
  | issue :: rest, acc =>
      match getProp issue "path" with
      | .error e => .error e
      | .ok path =>
        match getIndexZero path with
        | .error e => .error e
        | .ok first =>
          let key := jsToString (if nullish first then .str "_error" else first)
          match getProp issue "message" with
          | .error e => .error e
          | .ok msg =>
            if hasKey acc key then formatErrorsLoop rest (appendMsg acc key msg)
            else if key ∈ objectProtoKeys then
              .error "TypeError: acc[key].push is not a function"
            else formatErrorsLoop rest (acc ++ [(key, [msg])])

/-- The source function formatErrorsInternal: folds an issue list into a map
from first path segment (or _error) to the list of messages, in arrival
order.  Calling reduce on anything that is not an array throws. -/
def formatErrorsInternal (issues : Json) : Except String Json :=
  match issues with
  | .arr xs =>
      (formatErrorsLoop xs []).map
        (fun acc => Json.obj (acc.map (fun kv => (kv.1, Json.arr kv.2))))
  | .null => .error "TypeError: Cannot read properties of null (reading reduce)"
  | .undefinedV => .error "TypeError: Cannot read properties of undefined (reading reduce)"
  | _ => .error "TypeError: issues.reduce is not a function"

/-- The per-message transform of the GraphQL error branch: upper-case, map
spaces to underscores, strip periods. -/
def cookGraphql (x : String) : String :=
  dropChar (replaceChar (jsToUpper x) ' ' '_') '.'

/-- Collects String(err.message or the UNKNOWN default) over the transport
error array; a null/undefined element makes the property read throw. -/
def graphqlMessages : List Json → Except String (List String)
  | [] => .ok []
  | err :: rest =>
      match getProp err "message" with
      | .error e => .error e
      | .ok m =>
        let s := jsToString (if truthy m then m else .str "UNKNOWN_GRAPHQL_ERROR")
        match graphqlMessages rest with
        | .error e => .error e
        | .ok ss => .ok (s :: ss)

/-- The 10 MiB DoS limit on the effective payload string. -/
def tenMiB : Nat := 10 * 1024 * 1024

/-- The bare-number shape accepted by the cheap JSON pre-check, matching the
digits-optionally-dot-digits pattern of the source. -/
def isNumericLiteral (s : String) : Bool :=
  match splitOnChar s '.' with
  | [a] => a ≠ "" && a.data.all Char.isDigit
  | [a, b] => a ≠ "" && a.data.all Char.isDigit && b ≠ "" && b.data.all Char.isDigit
  | _ => false

/-- The cheap guard before full JSON parsing: the trimmed payload must start
with an open brace (codepoint 123), an open bracket or a double quote, or be
exactly null, true, false, or a bare number. -/
def validJsonStart (t : String) : Bool :=
  (match strHead t with
   | some c => c = Char.ofNat 123 || c = '[' || c = '"'
   | none => false)
  || t = "null" || t = "true" || t = "false" || isNumericLiteral t

/-- The effective payload string of the compression step (source lines
413-455): a string payload is first parsed to look for the reserved _gzip
wrapper; when found, its value is handed to base64+inflate (the external
inflate stands for atob plus pako.inflate, returning none when either
throws); in every other case, including decompression failure, the payload
is String-coerced as-is. -/
def computeRawData (jsonParse : String → Option Json)
    (inflate : Json → Option String) (dat : Json) : String :=
  let parsedData : Json :=
    match dat with
    | .str s => match jsonParse s with | some v => v | none => .null
    | other => other
  match parsedData with
  | .obj fields =>
      match lookupField fields "_gzip" with
      | some g => match inflate g with | some s => s | none => jsToString dat
      | none => jsToString dat
  | _ => jsToString dat

/-- The failure result produced when a payload cannot be handled under a
success status. -/
def invalidDataResp : InternalResp :=
  { success := false,
    errors := some (.obj [("_error",
      .arr [.str "INVALID_DATA_FORMAT_IN_SUCCESSFUL_RESPONSE"])]) }

/-- The catch branch of the payload try block: under a success status the
whole call fails (delivered on the error channel here); under any other
status a diagnostic object wrapping the raw payload and the thrown message
replaces the parsed data and the call continues. -/
def recoverPayload (st dat : Json) (msg : String) : Except InternalResp Json :=
  if isStatusStr st "OK" || isStatusStr st "WARNING" then .error invalidDataResp
  else .ok (.obj [("_raw", dat), ("_parsingError", .str msg)])

/-- The guarded parse of the effective payload string: reject when over the
10 MiB limit, reject unless the trimmed string looks like JSON, then parse;
each rejection throws into the catch branch above. -/
def payloadGate (jsonParse : String → Option Json) (st dat : Json)
    (raw : String) : Except InternalResp Json :=
  if raw.length > tenMiB then recoverPayload st dat "Response data too large"
  else if validJsonStart (trimStr raw) = false then
    recoverPayload st dat "Invalid JSON format"
  else
    match jsonParse raw with
    | some v => .ok v
    | none => recoverPayload st dat "Unexpected token in JSON"

/-- The guarded payload-parsing step of formatResponseInternal (the try
block with its catch): a falsy payload yields null; otherwise the effective
decompressed string runs through the size and shape gates and the parser. -/
def computeDataResponse (jsonParse : String → Option Json)
    (inflate : Json → Option String) (st dat : Json) : Except InternalResp Json :=
  if truthy dat = false then .ok .null
  else payloadGate jsonParse st dat (computeRawData jsonParse inflate dat)

/-- The status switch of formatResponseInternal (source lines 506-546). -/
def respOfStatus (st ec fw dataResponse : Json) : Except String InternalResp :=
  if isStatusStr st "OK" || isStatusStr st "WARNING" then
    .ok { success := true, data := some dataResponse,
          fieldsWarning := some fw, errorCode := some ec }
  else if isStatusStr st "FIELD_ERROR" then
    match formatErrorsInternal dataResponse with
    | .error e => .error e
    | .ok errs => .ok { success := false, errors := some errs, errorCode := some ec }
  else if isStatusStr st "ITEM_NOT_FOUND" then
    .ok { success := false,
          errors := some (.obj [("_id", .arr [.str "ITEM_NOT_FOUND"])]),
          errorCode := some (if truthy ec then ec else .str "ITEM_NOT_FOUND") }
  else if isStatusStr st "ERROR" then
    match dataResponse with
    | .arr xs =>
        .ok { success := false, data := some (.arr xs),
              errors := some (.obj [("_transaction",
                .arr [.str "ONE_OR_MORE_OPERATIONS_FAILED"])]),
              errorCode := some ec }
    | .obj fields =>
        .ok { success := false, errors := some (.obj fields),
              errorCode := some (if truthy ec then ec else .str "INTERNAL_SERVER_ERROR") }
    | other =>
        .ok { success := false,
              errors := some (.obj [("_error", .arr [.str
                (jsToString (if truthy other then other else .str "UNKNOWN_ERROR"))])]),
              errorCode := some (if truthy ec then ec else .str "INTERNAL_SERVER_ERROR") }
  else
    .ok { success := false,
          errors := some (.obj [("_error",
            .arr [if truthy st then st else .str "UNKNOWN_ERROR_STATUS"])]),
          errorCode := some (if truthy ec then ec else .str "INTERNAL_SERVER_ERROR") }

/-- The failure shape for an envelope without the expected data.response. -/
def invalidStructureResp : InternalResp :=
  { success := false,
    errors := some (.obj [("_error", .arr [.str "INVALID_RESPONSE_STRUCTURE"])]) }

/-- The source function formatResponseInternal: transport errors map to the
_graphql failure; a missing data.response maps to the structural failure;
otherwise the payload is decompressed, vetted and parsed, and the result is
dispatched on the business status.  Runtime TypeError propagation is the
error channel. -/
def formatResponseInternal (jsonParse : String → Option Json)
    (inflate : Json → Option String) (response : Json) :
    Except String InternalResp :=
  match getProp response "errors" with
  | .error e => .error e
  | .ok errsVal =>
    if truthy errsVal then
      match errsVal with
      | .arr es =>
          match graphqlMessages es with
          | .error e => .error e
          | .ok msgs =>
              .ok { success := false,
                    errors := some (.obj [("_graphql",
                      .arr (msgs.map (fun x => Json.str (cookGraphql x))))]) }
      | _ => .error "TypeError: response.errors.map is not a function"
    else
      let dataVal := propOrUndef response "data"
      if truthy dataVal = false then .ok invalidStructureResp
      else
        let apiResponse := propOrUndef dataVal "response"
        if truthy apiResponse = false then .ok invalidStructureResp
        else
          let stRaw := propOrUndef apiResponse "status"
          let st := if nullish stRaw then Json.str "Unknown" else stRaw
          let ec := propOrUndef apiResponse "errorCode"
          let dat := propOrUndef apiResponse "data"
          let fw := propOrUndef apiResponse "fieldsWarning"
          match computeDataResponse jsonParse inflate st dat with
          | .error resp => .ok resp
          | .ok dataResponse => respOfStatus st ec fw dataResponse

/-- The source function adaptToPublicResponse: the errors field survives to
the public shape only when it is a truthy non-array object; otherwise the
public literal omits it. -/
def adaptToPublicResponse (r : InternalResp) : InternalResp :=
  match r.errors with
  | some (.obj fields) =>
      { success := r.success, data := r.data, errors := some (.obj fields),
        fieldsWarning := r.fieldsWarning, errorCode := r.errorCode }
  | _ =>
      { success := r.success, data := r.data, errors := none,
        fieldsWarning := r.fieldsWarning, errorCode := r.errorCode }

/-- The session state owned by the token lifecycle manager: the token
quadruple plus the single-flight refresh bookkeeping (the pending refresh
promise is modelled by an identifying number). -/
structure CrudState where
  token : String := ""
  refreshToken : String := ""
  tokenExpiresAt : Int := 0
  refreshExpiresAt : Int := 0
  isRefreshing : Bool := false
  refreshPromise : Option Nat := none

/-- The source method clearTokensAndRefreshState: zeroes all four token
fields and the refresh bookkeeping in one synchronous update.  The
invalidation callback it then fires carries no state and is not modelled. -/
def clearTokensAndRefreshState (_s : CrudState) : CrudState :=
  { token := "", refreshToken := "", tokenExpiresAt := 0, refreshExpiresAt := 0,
    isRefreshing := false, refreshPromise := none }

/-- The fully-cleared session. -/
def clearedState : CrudState := {}

/-- Urgency levels of the expiry check. -/
inductive Urgency where
  | critical
  | high
  | normal

/-- The dynamic buffers of isTokenExpired, in milliseconds. -/
def bufferTime : Urgency → Int
  | .critical => 30 * 1000
  | .high => 2 * 60 * 1000
  | .normal => 5 * 60 * 1000

/-- The source method isTokenExpired (the near-expiry check): false when the
expiry timestamp is unset (0), else true iff now has reached the timestamp
minus the urgency buffer.  The source default urgency is high. -/
def isTokenExpired (s : CrudState) (now : Int) (u : Urgency := .high) : Bool :=
  if s.tokenExpiresAt = 0 then false
  else decide (now ≥ s.tokenExpiresAt - bufferTime u)

/-- The source method isRefreshTokenExpired: false when unset, else true iff
now has reached the timestamp (no buffer). -/
def isRefreshTokenExpired (s : CrudState) (now : Int) : Bool :=
  if s.refreshExpiresAt = 0 then false
  else decide (now ≥ s.refreshExpiresAt)

/-- The public method setToken: assigns the argument as access token when it
is a non-empty string, and does nothing at all otherwise.  The argument is a
runtime value because the source guards typeof explicitly. -/
def setToken (s : CrudState) (v : Json) : CrudState :=
  match v with
  | .str t => if t ≠ "" then { s with token := t } else s
  | _ => s

/-- The claim checks of isAccessTokenValid on a decoded JWT payload: sub and
exp must be truthy, a truthy type claim must equal access, and a numeric exp
must lie strictly in the future (seconds, no buffer).  A non-numeric truthy
exp compares as NaN in the source, so the comparison is false and the token
passes; numeric-string coercion is not modelled (exp claims are numbers).
Property reads throw on a nullish payload. -/
def checkClaims (payload : Json) (now : Int) : Except String Bool :=
  match getProp payload "sub" with
  | .error e => .error e
  | .ok sub =>
    match getProp payload "exp" with
    | .error e => .error e
    | .ok exp =>
      if truthy sub = false || truthy exp = false then .ok false
      else
        match getProp payload "type" with
        | .error e => .error e
        | .ok ty =>
          if truthy ty && !(isStatusStr ty "access") then .ok false
          else
            match exp with
            | .num e => .ok (decide (e > Int.fdiv now 1000))
            | _ => .ok true

/-- The source method isAccessTokenValid: empty token is invalid; the token
must split on the dot into exactly 3 segments; the second segment is decoded
by the external base64+JSON decode (none when either throws, caught to
false); then the claim checks run, any thrown TypeError caught to false. -/
def isAccessTokenValid (decodeB64Json : String → Option Json)
    (token : String) (now : Int) : Bool :=
  if token = "" then false
  else
    let parts := splitOnChar token '.'
    if parts.length ≠ 3 then false
    else
      match decodeB64Json ((parts.get? 1).getD "") with
      | none => false
      | some payload =>
          match checkClaims payload now with
          | .error _ => false
          | .ok b => b

/-- The token configuration accepted by setTokens.  Absent optional fields
are modelled by their falsy defaults, which is exactly what the source
truthiness guards test. -/
structure TokenConfig where
  accessToken : String := ""
  refreshToken : String := ""
  expiresAt : Int := 0
  refreshExpiresAt : Int := 0

/-- The public method setTokens: bulk-assigns every truthy provided field,
then re-validates the now-current access token and clears the whole session
when it is invalid. -/
def setTokens (decodeB64Json : String → Option Json) (s : CrudState)
    (cfg : TokenConfig) (now : Int) : CrudState :=
  let s1 : CrudState := { s with
    token := if cfg.accessToken ≠ "" then cfg.accessToken else s.token
    refreshToken := if cfg.refreshToken ≠ "" then cfg.refreshToken else s.refreshToken
    tokenExpiresAt := if cfg.expiresAt ≠ 0 then cfg.expiresAt else s.tokenExpiresAt
    refreshExpiresAt := if cfg.refreshExpiresAt ≠ 0 then cfg.refreshExpiresAt
      else s.refreshExpiresAt }
  if s1.token ≠ "" && !(isAccessTokenValid decodeB64Json s1.token now) then
    clearTokensAndRefreshState s1
  else s1

/-- The failure result of the catch branch of performTokenRefresh. -/
def refreshFailedResp : InternalResp :=
  { success := false,
    errors := some (.obj [("_refresh", .arr [.str "TOKEN_REFRESH_FAILED"])]) }

/-- The source method performTokenRefresh.  The network interaction
(executeQuery on the refresh mutation) is abstracted by netResult: an error
value is a thrown transport exception.  The whole body sits in one try, so a
TypeError thrown while normalizing the refresh response lands in the same
catch.  On a successful normalized result carrying a token, all four session
fields are replaced in one synchronous update (fresh refresh token kept only
when supplied, expiries now + expiresIn seconds with defaults 900 and
604800); on every other path the whole session is cleared.  A truthy
non-numeric expiresIn would go through NaN arithmetic in the source and is
not modelled (the backend sends numbers); all falsy cases agree exactly. -/
def performTokenRefresh (jsonParse : String → Option Json)
    (inflate : Json → Option String) (s : CrudState) (now : Int)
    (netResult : Except String Json) : CrudState × InternalResp :=
  match netResult with
  | .error _ => (clearTokensAndRefreshState s, refreshFailedResp)
  | .ok raw =>
    match formatResponseInternal jsonParse inflate raw with
    | .error _ => (clearTokensAndRefreshState s, refreshFailedResp)
    | .ok internal =>
      let d : Json := (internal.data).getD .undefinedV
      let dataTok : Json := if nullish d then .undefinedV else propOrUndef d "token"
      if internal.success && truthy dataTok then
        let newToken := jsToString dataTok
        let refTok := propOrUndef d "refreshToken"
        let newRefreshToken := if truthy refTok then jsToString refTok else s.refreshToken
        let expiresIn : Int :=
          match propOrUndef d "expiresIn" with
          | .num n => if n ≠ 0 then n else 900
          | _ => 900
        let refreshExpiresIn : Int :=
          match propOrUndef d "refreshExpiresIn" with
          | .num n => if n ≠ 0 then n else 604800
          | _ => 604800
        let s2 : CrudState := { s with
          token := newToken
          refreshToken := newRefreshToken
          tokenExpiresAt := now + expiresIn * 1000
          refreshExpiresAt := now + refreshExpiresIn * 1000 }
        (s2, { success := true, data := some (.obj [
            ("token", .str s2.token),
            ("refreshToken", .str s2.refreshToken),
            ("expiresAt", .num s2.tokenExpiresAt),
            ("refreshExpiresAt", .num s2.refreshExpiresAt)]) })
      else
        (clearTokensAndRefreshState s, adaptToPublicResponse internal)

/-- Outcome of one wrapped outbound operation: the final session state, the
response handed to the caller, and how many times the original query was
dispatched over the network. -/
structure CrudOpOutcome where
  state : CrudState
  resp : InternalResp
  dispatched : Nat

/-- The synthetic failure returned when the pre-dispatch refresh fails. -/
def authFailResp : InternalResp :=
  { success := false,
    errors := some (.obj [("_auth", .arr [.str "TOKEN_REFRESH_FAILED_PLEASE_LOGIN"])]),
    errorCode := some (.str "UNAUTHORIZED") }

/-- The auth-retry orchestrator performCrudOperation, lines 567-602: the
initialization guard throws; when an access token exists, is critically near
expiry and a usable (present, unexpired) refresh token exists, the refresh
runs first; if it fails the session is cleared and the synthetic _auth
failure is returned without dispatching the original call.  refreshFn
abstracts the awaited refreshAccessToken (its state change and result), and
rest abstracts everything from the dispatch on (line 604 onward), reporting
how many times it sent the query. -/
def performCrudOperation (endpoint apiKey : String) (s : CrudState) (now : Int)
    (refreshFn : CrudState → CrudState × InternalResp)
    (rest : CrudState → CrudOpOutcome) : Except String CrudOpOutcome :=
  if endpoint = "" || apiKey = "" then
    .error "Crudify: Not initialized. Call init() first."
  else if s.token ≠ "" && isTokenExpired s now .critical && s.refreshToken ≠ ""
      && !(isRefreshTokenExpired s now) then
    match refreshFn s with
    | (s1, r) =>
      if r.success then .ok (rest s1)
      else .ok { state := clearTokensAndRefreshState s1, resp := authFailResp,
                 dispatched := 0 }
  else .ok (rest s)

/-- What one call to refreshAccessToken observes: joined an in-flight
promise, returned an immediate result, threw, or started a fresh refresh
(receiving the new promise). -/
inductive RefreshOutcome where
  | threwNotInitialized
  | joined (pid : Nat)
  | noRefreshToken
  | notExpired
  | started (pid : Nat)

/-- The refresh subsystem under the single-threaded event loop: the session,
a supply of fresh promise identities, and a count of refresh network calls
issued so far. -/
structure RefreshSys where
  state : CrudState
  nextId : Nat
  networkCalls : Nat

/-- Marking a refresh as in flight: installs the fresh promise identity,
sets the isRefreshing flag and counts the refresh network call. -/
def installRefresh (sys : RefreshSys) : RefreshSys :=
  let s1 : CrudState :=
    { sys.state with isRefreshing := true, refreshPromise := some sys.nextId }
  { state := s1, nextId := sys.nextId + 1, networkCalls := sys.networkCalls + 1 }

/-- The synchronous prefix of refreshAccessToken (lines 758-797), which runs
without interleaving on the event loop: an installed in-flight promise is
returned to the caller as-is; with no refresh token the call fails
immediately; uninitialized throws; a token not near expiry under the default
high buffer returns current data without network I/O; otherwise a fresh
promise is installed and the refresh network call is issued (counted at
once, since performTokenRefresh starts with the query). -/
def refreshAccessTokenStep (endpoint apiKey : String) (sys : RefreshSys)
    (now : Int) : RefreshSys × RefreshOutcome :=
  match sys.state.refreshPromise with
  | some p => (sys, .joined p)
  | none =>
    if sys.state.refreshToken = "" then (sys, .noRefreshToken)
    else if endpoint = "" || apiKey = "" then (sys, .threwNotInitialized)
    else if !(isTokenExpired sys.state now) then (sys, .notExpired)
    else (installRefresh sys, .started sys.nextId)

/-- A sequence of refresh calls arriving at given times, with no intervening
resolution of the in-flight refresh. -/
def runRefreshCalls (endpoint apiKey : String) :
    RefreshSys → List Int → RefreshSys × List RefreshOutcome
  | sys, [] => (sys, [])
  | sys, now :: rest =>
    match refreshAccessTokenStep endpoint apiKey sys now with
    | (sys1, o) =>
      match runRefreshCalls endpoint apiKey sys1 rest with
      | (sys2, os) => (sys2, o :: os)

/-- A wire envelope of the expected shape: data.response carrying the
business status, the payload, the field warnings and the error code. -/
def mkEnvelope (st dat fw ec : Json) : Json :=
  .obj [("data", .obj [("response", .obj
    [("status", st), ("data", dat), ("fieldsWarning", fw), ("errorCode", ec)])])]

/-- A concrete fragment of the external JSON.parse used to evaluate theorems
at specific inputs: the two-character object literal parses to the empty
object, everything else fails to parse. -/
def demoParse : String → Option Json :=
  fun s => if s = "\x7b\x7d" then some (.obj []) else none

/-- A concrete external decompressor that always fails. -/
def demoInflate : Json → Option String := fun _ => none

/-- A concrete fragment of the external JSON.parse for a genuine one-issue
array whose first path segment is toString. -/
def demoParseIssues : String → Option Json :=
  fun s =>
    if s = "[\x7b\"path\":[\"toString\"],\"message\":\"m\"\x7d]" then
      some (.arr [.obj [("path", .arr [.str "toString"]), ("message", .str "m")]])
    else none

/-- A payload string one character over the 10 MiB limit. -/
def bigPayload : String := String.mk (List.replicate (tenMiB + 1) 'a')

/-- The normalized result of an OK envelope with an absent payload. -/
def okNullResp : InternalResp :=
  { success := true, data := some Json.null, fieldsWarning := some Json.undefinedV,
    errorCode := some Json.undefinedV }

/-- The normalized result of an ERROR envelope with an empty-object payload:
a failure whose errors map is present but empty. -/
def emptyErrorsResp : InternalResp :=
  { success := false, errors := some (.obj []),
    errorCode := some (.str "INTERNAL_SERVER_ERROR") }

/-- Processing refresh calls while a promise is installed changes nothing
and hands every caller that same promise. -/
theorem runRefreshCalls_inflight (endpoint apiKey : String) (sys : RefreshSys)
    (p : Nat) (nows : List Int) (hprom : sys.state.refreshPromise = some p) :
    runRefreshCalls endpoint apiKey sys nows =
      (sys, nows.map (fun _ => RefreshOutcome.joined p)) := by
  induction nows with
  | nil => rfl
  | cons now rest ih =>
      have hstep : refreshAccessTokenStep endpoint apiKey sys now =
          (sys, .joined p) := by
        unfold refreshAccessTokenStep
        rw [hprom]
      unfold runRefreshCalls
      rw [hstep]
      dsimp only
      rw [ih]
      rfl

/-- C9: for a fixed session state and current time, the near-expiry check is
monotonic in the urgency buffer: once true at some buffer, it stays true at
every larger buffer (critical 30s, high 120s, normal 300s). -/
theorem isTokenExpired_monotone (s : CrudState) (now : Int) (u1 u2 : Urgency)
    (hbuf : bufferTime u1 ≤ bufferTime u2)
    (h : isTokenExpired s now u1 = true) : isTokenExpired s now u2 = true := by
  unfold isTokenExpired at h ⊢
  by_cases h0 : s.tokenExpiresAt = 0
  · simp [h0] at h
  · simp only [h0, if_false, decide_eq_true_eq] at h ⊢
    omega

/-- Witness for C9 at a concrete state and time. -/
theorem isTokenExpired_monotone_witness :
    bufferTime .critical ≤ bufferTime .normal ∧
    isTokenExpired ⟨"t", "", 100000, 0, false, none⟩ 70000 .critical = true ∧
    isTokenExpired ⟨"t", "", 100000, 0, false, none⟩ 70000 .normal = true :=
  ⟨by decide, by decide,
   isTokenExpired_monotone ⟨"t", "", 100000, 0, false, none⟩ 70000 .critical .normal
     (by decide) (by decide)⟩

/-- C10: setToken stores any non-empty string as the access token without
any structural validation and leaves the refresh token and both expiry
timestamps untouched, while a non-string or empty argument leaves the whole
session unchanged. -/
theorem setToken_spec (s : CrudState) (t : String) (v : Json) (ht : t ≠ "")
    (hv : ∀ u : String, v = Json.str u → u = "") :
    (setToken s (.str t)).token = t ∧
    (setToken s (.str t)).refreshToken = s.refreshToken ∧
    (setToken s (.str t)).tokenExpiresAt = s.tokenExpiresAt ∧
    (setToken s (.str t)).refreshExpiresAt = s.refreshExpiresAt ∧
    setToken s v = s := by
  have hfix : setToken s v = s := by
    cases v with
    | str u =>
        have hu : u = "" := hv u rfl
        simp [setToken, hu]
    | null => rfl
    | undefinedV => rfl
    | bool b => rfl
    | num n => rfl
    | arr xs => rfl
    | obj fields => rfl
  exact ⟨by simp [setToken, ht], by simp [setToken, ht], by simp [setToken, ht],
         by simp [setToken, ht], hfix⟩

/-- Witness for C10: a structurally invalid two-segment token is accepted
verbatim, and a numeric argument is ignored. -/
theorem setToken_spec_witness :
    (setToken ⟨"old", "r", 5, 6, false, none⟩ (.str "a.b")).token = "a.b" ∧
    (setToken ⟨"old", "r", 5, 6, false, none⟩ (.str "a.b")).refreshToken = "r" ∧
    (setToken ⟨"old", "r", 5, 6, false, none⟩ (.str "a.b")).tokenExpiresAt = 5 ∧
    (setToken ⟨"old", "r", 5, 6, false, none⟩ (.str "a.b")).refreshExpiresAt = 6 ∧
    setToken ⟨"old", "r", 5, 6, false, none⟩ (.num 3) = ⟨"old", "r", 5, 6, false, none⟩ :=
  setToken_spec ⟨"old", "r", 5, 6, false, none⟩ "a.b" (.num 3) (by decide)
    (fun u h => nomatch h)

/-- C7: setTokens with a provided access token that fails validation (for
example one with only two dot-separated segments) leaves the session fully
cleared: all four token fields zeroed together, never a partial state. -/
theorem setTokens_invalid_clears (decodeB64Json : String → Option Json)
    (s : CrudState) (cfg : TokenConfig) (now : Int)
    (hacc : cfg.accessToken ≠ "")
    (hinv : isAccessTokenValid decodeB64Json cfg.accessToken now = false) :
    setTokens decodeB64Json s cfg now = clearedState := by
  unfold setTokens
  simp [hacc, hinv, clearTokensAndRefreshState, clearedState]

/-- Witness for C7: a two-segment access token clears a fully-populated
session. -/
theorem setTokens_invalid_clears_witness :
    ("a.b" : String) ≠ "" ∧
    isAccessTokenValid (fun _ => none) "a.b" 0 = false ∧
    setTokens (fun _ => none) ⟨"old", "oldr", 5, 6, true, some 3⟩
      ⟨"a.b", "newr", 7, 8⟩ 0 = clearedState :=
  ⟨by decide, by decide,
   setTokens_invalid_clears (fun _ => none) ⟨"old", "oldr", 5, 6, true, some 3⟩
     ⟨"a.b", "newr", 7, 8⟩ 0 (by decide) (by decide)⟩

/-- C5: whenever the refresh fails — the network call threw, or the
normalized refresh result is a business failure — performTokenRefresh leaves
the entire session cleared: both tokens and both expiry timestamps zeroed. -/
theorem performTokenRefresh_failure_clears (jsonParse : String → Option Json)
    (inflate : Json → Option String) (s : CrudState) (now : Int)
    (net : Except String Json)
    (h : ∀ raw r, net = .ok raw →
      formatResponseInternal jsonParse inflate raw = .ok r → r.success = false) :
    (performTokenRefresh jsonParse inflate s now net).1 = clearedState := by
  cases net with
  | error e => rfl
  | ok raw =>
      cases hf : formatResponseInternal jsonParse inflate raw with
      | error e => simp [performTokenRefresh, hf, clearTokensAndRefreshState, clearedState]
      | ok internal =>
          have hs := h raw internal rfl hf
          simp [performTokenRefresh, hf, hs, clearTokensAndRefreshState, clearedState]

/-- Witness for C5: a thrown network exception clears a populated session. -/
theorem performTokenRefresh_failure_clears_witness :
    (performTokenRefresh (fun _ => none) (fun _ => none)
      ⟨"tok", "ref", 10, 20, true, some 1⟩ 0 (.error "network failure")).1
      = clearedState :=
  performTokenRefresh_failure_clears (fun _ => none) (fun _ => none)
    ⟨"tok", "ref", 10, 20, true, some 1⟩ 0 (.error "network failure")
    (fun _ _ hraw _ => nomatch hraw)

/-- C6: when the pre-dispatch refresh (taken because the access token is
critically near expiry and a usable refresh token exists) fails, the wrapped
operation clears the session and returns the synthetic _auth failure with
error code Unauthorized, dispatching the original call zero times, whatever
the rest of the operation would have done. -/
theorem performCrudOperation_refresh_fail (endpoint apiKey : String)
    (s : CrudState) (now : Int)
    (refreshFn : CrudState → CrudState × InternalResp)
    (rest : CrudState → CrudOpOutcome)
    (hep : endpoint ≠ "") (hak : apiKey ≠ "")
    (htok : s.token ≠ "")
    (hexp : isTokenExpired s now .critical = true)
    (href : s.refreshToken ≠ "")
    (hrexp : isRefreshTokenExpired s now = false)
    (hfail : (refreshFn s).2.success = false) :
    performCrudOperation endpoint apiKey s now refreshFn rest =
      .ok { state := clearedState, resp := authFailResp, dispatched := 0 } := by
  unfold performCrudOperation
  cases hr : refreshFn s with
  | mk s1 r =>
      rw [hr] at hfail
      simp only at hfail
      simp [hep, hak, htok, hexp, href, hrexp, hr, hfail,
        clearTokensAndRefreshState, clearedState]

/-- Witness for C6 at a concrete near-expiry session with a failing
refresh; the rest of the operation would have dispatched, but is skipped. -/
theorem performCrudOperation_refresh_fail_witness :
    performCrudOperation "e" "k" ⟨"tok", "ref", 100000, 0, false, none⟩ 99999
      (fun st => (st, refreshFailedResp))
      (fun st => ⟨st, invalidStructureResp, 5⟩) =
      .ok { state := clearedState, resp := authFailResp, dispatched := 0 } :=
  performCrudOperation_refresh_fail "e" "k" ⟨"tok", "ref", 100000, 0, false, none⟩
    99999 (fun st => (st, refreshFailedResp)) (fun st => ⟨st, invalidStructureResp, 5⟩)
    (by decide) (by decide) (by decide) (by decide) (by decide) (by decide) (by decide)

/-- C8: under the cooperative scheduler, a refresh call that finds no
in-flight promise but needs a refresh issues exactly one network call and
installs its promise, and every later call arriving while that refresh is
in flight joins the very same promise without further network calls, so all
callers observe the same resolved result. -/
theorem refresh_single_flight (endpoint apiKey : String) (sys : RefreshSys)
    (now : Int) (nows : List Int)
    (hprom : sys.state.refreshPromise = none)
    (href : sys.state.refreshToken ≠ "")
    (hep : endpoint ≠ "") (hak : apiKey ≠ "")
    (hexp : isTokenExpired sys.state now = true) :
    (refreshAccessTokenStep endpoint apiKey sys now).2 = .started sys.nextId ∧
    (refreshAccessTokenStep endpoint apiKey sys now).1.networkCalls
      = sys.networkCalls + 1 ∧
    (runRefreshCalls endpoint apiKey
      (refreshAccessTokenStep endpoint apiKey sys now).1 nows).1.networkCalls
      = sys.networkCalls + 1 ∧
    ∀ o ∈ (runRefreshCalls endpoint apiKey
      (refreshAccessTokenStep endpoint apiKey sys now).1 nows).2,
      o = RefreshOutcome.joined sys.nextId := by
  have hstep : refreshAccessTokenStep endpoint apiKey sys now =
      (installRefresh sys, .started sys.nextId) := by
    unfold refreshAccessTokenStep
    rw [hprom]
    simp [href, hep, hak, hexp]
  have hpinst : (installRefresh sys).state.refreshPromise = some sys.nextId := rfl
  have hrun := runRefreshCalls_inflight endpoint apiKey (installRefresh sys)
    sys.nextId nows hpinst
  rw [hstep, hrun]
  refine ⟨rfl, rfl, rfl, ?_⟩
  intro o ho
  simp at ho
  exact ho.2

/-- Witness for C8: three concurrent callers behind one starter all join
promise 0 and the network is hit exactly once. -/
theorem refresh_single_flight_witness :
    (refreshAccessTokenStep "e" "k" ⟨⟨"t", "r", 100000, 0, false, none⟩, 0, 0⟩ 0).2
      = .started 0 ∧
    (refreshAccessTokenStep "e" "k" ⟨⟨"t", "r", 100000, 0, false, none⟩, 0, 0⟩ 0).1.networkCalls = 1 ∧
    (runRefreshCalls "e" "k"
      (refreshAccessTokenStep "e" "k" ⟨⟨"t", "r", 100000, 0, false, none⟩, 0, 0⟩ 0).1
      [1, 2, 3]).1.networkCalls = 1 ∧
    ∀ o ∈ (runRefreshCalls "e" "k"
      (refreshAccessTokenStep "e" "k" ⟨⟨"t", "r", 100000, 0, false, none⟩, 0, 0⟩ 0).1
      [1, 2, 3]).2, o = RefreshOutcome.joined 0 :=
  refresh_single_flight "e" "k" ⟨⟨"t", "r", 100000, 0, false, none⟩, 0, 0⟩ 0 [1, 2, 3]
    rfl (by decide) (by decide) (by decide) (by decide)

/-- C2, evaluated at the failing inputs: a key literally named setTimeout or
setInterval is never reported dangerous at any depth or casing, because the
lower-cased key is compared against a list that still contains upper-case
letters in those two entries; the other entries do match case-insensitively. -/
theorem containsDangerousProperties_misses_setTimeout :
    containsDangerousProperties (.obj [("setTimeout", .str "x")]) 0 = false ∧
    containsDangerousProperties (.obj [("setInterval", .str "x")]) 0 = false ∧
    containsDangerousProperties (.obj [("a", .obj [("SETTIMEOUT", .str "x")])]) 0 = false ∧
    containsDangerousProperties (.obj [("a", .obj [("eVaL", .str "x")])]) 0 = true := by
  decide


/-- A successful formatErrorsInternal always yields an object map. -/
theorem formatErrorsInternal_obj (issues e : Json)
    (h : formatErrorsInternal issues = .ok e) : ∃ fields, e = Json.obj fields := by
  cases issues with
  | arr xs =>
      cases hl : formatErrorsLoop xs [] with
      | error e2 => simp [formatErrorsInternal, hl, Except.map] at h
      | ok acc =>
          simp [formatErrorsInternal, hl, Except.map] at h
          exact ⟨_, h.symm⟩
  | null => simp [formatErrorsInternal] at h
  | undefinedV => simp [formatErrorsInternal] at h
  | bool b => simp [formatErrorsInternal] at h
  | num n => simp [formatErrorsInternal] at h
  | str s => simp [formatErrorsInternal] at h
  | obj fields => simp [formatErrorsInternal] at h

/-- The catch branch of the payload step only ever fails with the
INVALID_DATA_FORMAT failure shape. -/
theorem recoverPayload_error_shape (st dat : Json) (msg : String)
    (resp : InternalResp) (h : recoverPayload st dat msg = .error resp) :
    resp = invalidDataResp := by
  unfold recoverPayload at h
  split at h
  · cases h; rfl
  · cases h

/-- The guarded parse only ever fails with the INVALID_DATA_FORMAT shape. -/
theorem payloadGate_error_shape (jp : String → Option Json) (st dat : Json)
    (raw : String) (resp : InternalResp)
    (h : payloadGate jp st dat raw = .error resp) : resp = invalidDataResp := by
  unfold payloadGate at h
  split at h
  · exact recoverPayload_error_shape _ _ _ _ h
  · split at h
    · exact recoverPayload_error_shape _ _ _ _ h
    · split at h
      · cases h
      · exact recoverPayload_error_shape _ _ _ _ h

/-- The early-failure channel of the payload step carries only the
INVALID_DATA_FORMAT failure shape. -/
theorem computeDataResponse_error_shape (jp : String → Option Json)
    (infl : Json → Option String) (st dat : Json) (resp : InternalResp)
    (h : computeDataResponse jp infl st dat = .error resp) :
    resp = invalidDataResp := by
  unfold computeDataResponse at h
  split at h
  · cases h
  · exact payloadGate_error_shape _ _ _ _ _ h

/-- Every result of the status switch satisfies the errors invariant:
no errors field on success, an object errors field on failure. -/
theorem respOfStatus_inv (st ec fw dr : Json) (r : InternalResp)
    (h : respOfStatus st ec fw dr = .ok r) :
    (r.success = true → r.errors = none) ∧
    (r.success = false → ∃ fields, r.errors = some (Json.obj fields)) := by
  unfold respOfStatus at h
  split at h
  · cases h
    exact ⟨fun _ => rfl, fun hfalse => (nomatch hfalse)⟩
  · split at h
    · cases hfe : formatErrorsInternal dr with
      | error e => rw [hfe] at h; cases h
      | ok errs =>
          rw [hfe] at h
          cases h
          obtain ⟨fields, hfields⟩ := formatErrorsInternal_obj dr errs hfe
          exact ⟨fun htrue => (nomatch htrue), fun _ => ⟨fields, by rw [hfields]⟩⟩
    · split at h
      · cases h
        exact ⟨fun htrue => (nomatch htrue), fun _ => ⟨_, rfl⟩⟩
      · split at h
        · split at h
          · cases h
            exact ⟨fun htrue => (nomatch htrue), fun _ => ⟨_, rfl⟩⟩
          · cases h
            exact ⟨fun htrue => (nomatch htrue), fun _ => ⟨_, rfl⟩⟩
          · cases h
            exact ⟨fun htrue => (nomatch htrue), fun _ => ⟨_, rfl⟩⟩
        · cases h
          exact ⟨fun htrue => (nomatch htrue), fun _ => ⟨_, rfl⟩⟩

/-- Off the FIELD_ERROR status, the status switch always returns a result. -/
theorem respOfStatus_total (st ec fw dr : Json)
    (hst : isStatusStr st "FIELD_ERROR" = false) :
    ∃ r, respOfStatus st ec fw dr = .ok r := by
  unfold respOfStatus
  split
  · exact ⟨_, rfl⟩
  · split
    · rename_i hfe
      rw [hst] at hfe
      cases hfe
    · split
      · exact ⟨_, rfl⟩
      · split
        · split
          · exact ⟨_, rfl⟩
          · exact ⟨_, rfl⟩
          · exact ⟨_, rfl⟩
        · exact ⟨_, rfl⟩

/-- Off the OK, WARNING and FIELD_ERROR statuses, the status switch always
returns a failure result. -/
theorem respOfStatus_failure (st ec fw dr : Json)
    (hok : isStatusStr st "OK" = false) (hwarn : isStatusStr st "WARNING" = false)
    (hfe : isStatusStr st "FIELD_ERROR" = false) :
    ∃ r, respOfStatus st ec fw dr = .ok r ∧ r.success = false := by
  unfold respOfStatus
  rw [hok, hwarn, hfe]
  simp only [Bool.or_self, if_false, Bool.false_eq_true]
  split
  · exact ⟨_, ⟨rfl, rfl⟩⟩
  · split
    · split
      · exact ⟨_, ⟨rfl, rfl⟩⟩
      · exact ⟨_, ⟨rfl, rfl⟩⟩
      · exact ⟨_, ⟨rfl, rfl⟩⟩
    · exact ⟨_, ⟨rfl, rfl⟩⟩

/-- Adaptation to the public shape never changes the success flag. -/
theorem adapt_success (r : InternalResp) :
    (adaptToPublicResponse r).success = r.success := by
  unfold adaptToPublicResponse
  split <;> rfl

/-- The whole normalizer satisfies the errors invariant before adaptation. -/
theorem formatResponseInternal_inv (jp : String → Option Json)
    (infl : Json → Option String) (resp0 : Json) (r : InternalResp)
    (h : formatResponseInternal jp infl resp0 = .ok r) :
    (r.success = true → r.errors = none) ∧
    (r.success = false → ∃ fields, r.errors = some (Json.obj fields)) := by
  unfold formatResponseInternal at h
  cases hg : getProp resp0 "errors" with
  | error e => rw [hg] at h; cases h
  | ok errsVal =>
      rw [hg] at h
      dsimp only at h
      split at h
      · cases errsVal with
        | arr es =>
            dsimp only at h
            cases hgm : graphqlMessages es with
            | error e => rw [hgm] at h; cases h
            | ok msgs =>
                rw [hgm] at h
                cases h
                exact ⟨fun htrue => (nomatch htrue), fun _ => ⟨_, rfl⟩⟩
        | null => cases h
        | undefinedV => cases h
        | bool b => cases h
        | num n => cases h
        | str s => cases h
        | obj fields => cases h
      · split at h
        · cases h
          exact ⟨fun htrue => (nomatch htrue), fun _ => ⟨_, rfl⟩⟩
        · split at h
          · cases h
            exact ⟨fun htrue => (nomatch htrue), fun _ => ⟨_, rfl⟩⟩
          · split at h
            · rename_i respE hcde
              cases h
              have hshape := computeDataResponse_error_shape _ _ _ _ _ hcde
              subst hshape
              exact ⟨fun htrue => (nomatch htrue), fun _ => ⟨_, rfl⟩⟩
            · exact respOfStatus_inv _ _ _ _ _ h

/-- Unfolding the normalizer on a well-shaped envelope: no transport errors,
the expected data.response present, so the result is the dispatched status
switch over the guarded payload parse. -/
theorem formatResponseInternal_mkEnvelope (jp : String → Option Json)
    (infl : Json → Option String) (st dat fw ec : Json) :
    formatResponseInternal jp infl (mkEnvelope st dat fw ec) =
      (match computeDataResponse jp infl
          (if nullish st then Json.str "Unknown" else st) dat with
       | .error resp => .ok resp
       | .ok dr => respOfStatus (if nullish st then Json.str "Unknown" else st)
           ec fw dr) := rfl

/-- The defaulted status is not a given plain status string when the raw
status differs from it and the string is not the Unknown default. -/
theorem statusDefault_not (st : Json) (s : String) (hs : st ≠ Json.str s)
    (hus : s ≠ "Unknown") :
    isStatusStr (if nullish st then Json.str "Unknown" else st) s = false := by
  cases st with
  | null => simp [nullish, isStatusStr, Ne.symm hus]
  | undefinedV => simp [nullish, isStatusStr, Ne.symm hus]
  | str s2 =>
      have hne : s2 ≠ s := fun he => hs (by rw [he])
      simp [nullish, isStatusStr, hne]
  | bool b => simp [nullish, isStatusStr]
  | num n => simp [nullish, isStatusStr]
  | arr xs => simp [nullish, isStatusStr]
  | obj fields => simp [nullish, isStatusStr]


/-- C1 (amended): for every wire response that normalizes to a result, the
public result satisfies: success true implies the errors field is absent,
and success false implies the errors field is present and is an object map
(keyed by field name or a synthetic key); the map itself can be empty when
an ERROR-status payload supplies an empty object. -/
theorem normalizedResult_errorsInvariant (jsonParse : String → Option Json)
    (inflate : Json → Option String) (response : Json) (r : InternalResp)
    (h : formatResponseInternal jsonParse inflate response = .ok r) :
    ((adaptToPublicResponse r).success = true →
      (adaptToPublicResponse r).errors = none) ∧
    ((adaptToPublicResponse r).success = false →
      ∃ fields, (adaptToPublicResponse r).errors = some (Json.obj fields)) := by
  obtain ⟨h1, h2⟩ := formatResponseInternal_inv jsonParse inflate response r h
  constructor
  · intro hs
    rw [adapt_success] at hs
    have he := h1 hs
    simp [adaptToPublicResponse, he]
  · intro hs
    rw [adapt_success] at hs
    obtain ⟨fields, hf⟩ := h2 hs
    exact ⟨fields, by simp [adaptToPublicResponse, hf]⟩

/-- Witness for C1 at a concrete successful and a concrete failing input. -/
theorem normalizedResult_errorsInvariant_witness :
    ((adaptToPublicResponse okNullResp).success = true →
      (adaptToPublicResponse okNullResp).errors = none) ∧
    ((adaptToPublicResponse okNullResp).success = false →
      ∃ fields, (adaptToPublicResponse okNullResp).errors = some (Json.obj fields)) :=
  normalizedResult_errorsInvariant demoParse demoInflate
    (mkEnvelope (.str "OK") .null .undefinedV .undefinedV) okNullResp rfl

/-- Counterexample to C1 as stated: an ERROR-status response whose payload
is the empty JSON object normalizes to success false with an errors field
that is present but an empty map, so the errors map is not always
non-empty. -/
theorem normalizedResult_errorsInvariant_counterexample :
    formatResponseInternal demoParse demoInflate
      (mkEnvelope (.str "ERROR") (.str "\x7b\x7d") .undefinedV .undefinedV) =
      .ok emptyErrorsResp ∧
    (adaptToPublicResponse emptyErrorsResp).success = false ∧
    (adaptToPublicResponse emptyErrorsResp).errors = some (.obj []) :=
  ⟨rfl, rfl, rfl⟩

/-- C3 (amended): for every envelope carrying any business status other
than FIELD_ERROR and any payload whatsoever, normalization returns a result
object and never throws; under FIELD_ERROR the issue fold may throw a
TypeError that reaches the caller — it does whenever the payload is not an
array of issue objects, and even for a genuine issue array when an issue's
first path segment names an inherited Object.prototype member such as
toString. -/
theorem normalization_total_nonFieldError (jsonParse : String → Option Json)
    (inflate : Json → Option String) (st dat fw ec : Json)
    (hst : st ≠ Json.str "FIELD_ERROR") :
    ∃ r, formatResponseInternal jsonParse inflate
      (mkEnvelope st dat fw ec) = .ok r := by
  have hfe := statusDefault_not st "FIELD_ERROR" hst (by decide)
  rw [formatResponseInternal_mkEnvelope]
  cases hc : computeDataResponse jsonParse inflate
      (if nullish st then Json.str "Unknown" else st) dat with
  | error resp => exact ⟨resp, rfl⟩
  | ok dr =>
      obtain ⟨r, hr⟩ := respOfStatus_total _ ec fw dr hfe
      exact ⟨r, hr⟩

/-- Witness for C3 at a concrete ERROR envelope with a null payload. -/
theorem normalization_total_nonFieldError_witness :
    ∃ r, formatResponseInternal demoParse demoInflate
      (mkEnvelope (.str "ERROR") .null .undefinedV .undefinedV) = .ok r :=
  normalization_total_nonFieldError demoParse demoInflate
    (.str "ERROR") .null .undefinedV .undefinedV (by simp)

/-- Counterexample to C3 as stated: a FIELD_ERROR response with an absent
payload makes the issue fold call reduce on null, and a FIELD_ERROR
response with a genuine one-issue array whose first path segment is
toString makes the fold push onto the inherited Object.prototype.toString;
both TypeErrors propagate out of normalization instead of a result
object. -/
theorem normalization_total_counterexample :
    formatResponseInternal demoParse demoInflate
      (mkEnvelope (.str "FIELD_ERROR") Json.null .undefinedV .undefinedV) =
      .error "TypeError: Cannot read properties of null (reading reduce)" ∧
    formatResponseInternal demoParseIssues demoInflate
      (mkEnvelope (.str "FIELD_ERROR")
        (.str "[\x7b\"path\":[\"toString\"],\"message\":\"m\"\x7d]")
        .undefinedV .undefinedV) =
      .error "TypeError: acc[key].push is not a function" :=
  ⟨rfl, rfl⟩

/-- The one-over-limit payload has length one over the limit. -/
theorem bigPayload_length : bigPayload.length = tenMiB + 1 := by
  simp [bigPayload, String.length]

/-- The one-over-limit payload is not the empty string. -/
theorem bigPayload_ne_empty : bigPayload ≠ "" := by
  intro hcontra
  have hlen := congrArg String.length hcontra
  rw [bigPayload_length] at hlen
  simp [String.length] at hlen

/-- The one-over-limit payload is truthy. -/
theorem truthy_bigPayload : truthy (.str bigPayload) = true := by
  simp [truthy]
  exact bigPayload_ne_empty

/-- With a parser that rejects it, the big payload is its own effective
payload string. -/
theorem computeRawData_big :
    computeRawData (fun _ => none) demoInflate (.str bigPayload) = bigPayload := rfl

/-- C4 (amended): an effective payload string over 10 MiB normalizes to a
failure result (success false) under every business status except
FIELD_ERROR, where the oversized payload leads to a thrown TypeError
instead of a returned failure. -/
theorem oversizedPayload_fails (jsonParse : String → Option Json)
    (inflate : Json → Option String) (st dat fw ec : Json)
    (hdat : truthy dat = true)
    (hbig : (computeRawData jsonParse inflate dat).length > tenMiB)
    (hst : st ≠ Json.str "FIELD_ERROR") :
    ∃ r, formatResponseInternal jsonParse inflate (mkEnvelope st dat fw ec)
      = .ok r ∧ r.success = false := by
  have hfe := statusDefault_not st "FIELD_ERROR" hst (by decide)
  rw [formatResponseInternal_mkEnvelope]
  have hcd : computeDataResponse jsonParse inflate
      (if nullish st then Json.str "Unknown" else st) dat =
      recoverPayload (if nullish st then Json.str "Unknown" else st) dat
        "Response data too large" := by
    unfold computeDataResponse payloadGate
    rw [if_neg (by simp [hdat]), if_pos hbig]
  by_cases hok : (isStatusStr (if nullish st then Json.str "Unknown" else st) "OK" ||
      isStatusStr (if nullish st then Json.str "Unknown" else st) "WARNING") = true
  · have hrec : recoverPayload (if nullish st then Json.str "Unknown" else st) dat
        "Response data too large" = .error invalidDataResp := by
      unfold recoverPayload
      rw [if_pos hok]
    rw [hcd, hrec]
    exact ⟨invalidDataResp, ⟨rfl, rfl⟩⟩
  · have hrec : recoverPayload (if nullish st then Json.str "Unknown" else st) dat
        "Response data too large" = .ok (.obj [("_raw", dat),
          ("_parsingError", .str "Response data too large")]) := by
      unfold recoverPayload
      rw [if_neg hok]
    simp only [Bool.or_eq_true, not_or, Bool.not_eq_true] at hok
    obtain ⟨r, hr, hs⟩ := respOfStatus_failure
      (if nullish st then Json.str "Unknown" else st) ec fw
      (.obj [("_raw", dat), ("_parsingError", .str "Response data too large")])
      hok.1 hok.2 hfe
    rw [hcd, hrec]
    exact ⟨r, ⟨hr, hs⟩⟩

/-- Witness for C4: a payload one character over 10 MiB under the ERROR
status yields a failure result. -/
theorem oversizedPayload_fails_witness :
    ∃ r, formatResponseInternal (fun _ => none) demoInflate
      (mkEnvelope (.str "ERROR") (.str bigPayload) .undefinedV .undefinedV) = .ok r ∧
      r.success = false :=
  oversizedPayload_fails (fun _ => none) demoInflate (.str "ERROR")
    (.str bigPayload) .undefinedV .undefinedV truthy_bigPayload
    (by rw [computeRawData_big, bigPayload_length]; omega) (by simp)

/-- Counterexample to C4 as stated: the same oversized payload under the
FIELD_ERROR status does not normalize to a failure result; the diagnostic
object reaches the issue fold, whose reduce call throws. -/
theorem oversizedPayload_counterexample :
    formatResponseInternal (fun _ => none) demoInflate
      (mkEnvelope (.str "FIELD_ERROR") (.str bigPayload) .undefinedV .undefinedV) =
      .error "TypeError: issues.reduce is not a function" := by
  have hbig2 : (computeRawData (fun _ => none) demoInflate (.str bigPayload)).length
      > tenMiB := by
    rw [computeRawData_big, bigPayload_length]
    omega
  have hcd : computeDataResponse (fun _ => none) demoInflate
      (.str "FIELD_ERROR") (.str bigPayload) =
      .ok (.obj [("_raw", .str bigPayload),
        ("_parsingError", .str "Response data too large")]) := by
    unfold computeDataResponse payloadGate
    rw [if_neg (by simp [truthy_bigPayload]), if_pos hbig2]
    rfl
  have hdef : (if nullish (Json.str "FIELD_ERROR") then Json.str "Unknown"
      else Json.str "FIELD_ERROR") = Json.str "FIELD_ERROR" := rfl
  rw [formatResponseInternal_mkEnvelope, hdef, hcd]
  rfl

end Crudify
